import Mathlib

/-!
Verification development for the push_service repository.

The repository has three source files:

* `schemas.py` — the `NotificationEvent` pydantic model (event normalization:
  `event_id` default factory, `created_at` default, `user_id` coercion in
  `model_post_init`) and the `TokenValidation` shape.
* `scripts/manage_tokens.py` — `list_tokens`, `add_token`, `remove_token`,
  operating on Redis hashes under a fixed key-prefix namespace.
* `scripts/test_push_consumer.py` — `publish_test_event`, the safe-publish
  handshake against RabbitMQ (passive queue probe, recovery on
  `ChannelClosedByBroker`, publish, close).

The external Redis client is modelled as an association-list keyed store of
hashes (each hash an association list of field/value strings), exposing the
hash-map primitives the scripts call: `hget`, `hset`, `hdel`, `hgetall`.
The broker client is modelled by an environment recording the outcome of each
broker round-trip plus a trace of the operations attempted.
-/

namespace PushService

/-- A Redis hash: an ordered association list of field/value pairs.
Field update keeps the position of an existing field, matching Redis
`HSET` semantics observed through `HGETALL`. -/
abbrev Hash := List (String × String)

/-- The whole key-value store: keys mapped to hashes.  A missing key and a
key holding the empty hash are observationally identical through the
primitives, matching Redis (a hash whose last field is deleted disappears). -/
abbrev Store := List (String × Hash)

/-- Look up a field in a hash (Redis `HGET` on the materialized hash). -/
def hashGet : Hash → String → Option String
  | [], _ => none
  | (f, v) :: rest, field => if f = field then some v else hashGet rest field

/-- Set a field in a hash: overwrite in place if present, append otherwise. -/
def hashSet : Hash → String → String → Hash
  | [], field, value => [(field, value)]
  | (f, v) :: rest, field, value =>
      if f = field then (field, value) :: rest
      else (f, v) :: hashSet rest field value

/-- Delete a field from a hash. -/
def hashDel (h : Hash) (field : String) : Hash :=
  h.filter (fun p => decide (p.1 ≠ field))

/-- The hash stored at a key, empty when the key is absent. -/
def storeGet : Store → String → Hash
  | [], _ => []
  | (k, h) :: rest, key => if k = key then h else storeGet rest key

/-- Replace the hash stored at a key. -/
def storeSet : Store → String → Hash → Store
  | [], key, h => [(key, h)]
  | (k, v) :: rest, key, h =>
      if k = key then (key, h) :: rest
      else (k, v) :: storeSet rest key h

/-- Redis `HGETALL key`. -/
def hgetall (s : Store) (key : String) : Hash :=
  storeGet s key

/-- Redis `HGET key field`. -/
def hget (s : Store) (key field : String) : Option String :=
  hashGet (storeGet s key) field

/-- Redis `HSET key field value`. -/
def hset (s : Store) (key field value : String) : Store :=
  storeSet s key (hashSet (storeGet s key) field value)

/-- Redis `HDEL key field`. -/
def hdel (s : Store) (key field : String) : Store :=
  storeSet s key (hashDel (storeGet s key) field)

/-- The per-user forward-mapping key, `TOKEN_METADATA_PREFIX + f"user:{user_id}"`
in `manage_tokens.py`.  The prefix constant lives in the configuration module
(not under the sources), so every definition is parametric in it. -/
def user_key (pre : String) (userId : Int) : String :=
  pre ++ "user:" ++ toString userId

/-- The per-token metadata key, `TOKEN_METADATA_PREFIX + token`. -/
def token_key (pre : String) (token : String) : String :=
  pre ++ token

/-- `list_tokens(user_id)` from `manage_tokens.py`: reads the hash under the
per-user key with `HGETALL` and prints it; an empty result is reported as
"no token mapping" with exit code 0.  The observable result is the hash. -/
def list_tokens (pre : String) (s : Store) (userId : Int) : Hash :=
  hgetall s (user_key pre userId)

/-- `add_token(user_id, token)` from `manage_tokens.py`: two independent
writes, `HSET user_key "token" token` then
`HSET token_key mapping={"is_valid": "True"}`. -/
def add_token (pre : String) (s : Store) (userId : Int) (token : String) : Store :=
  hset (hset s (user_key pre userId) "token" token)
    (token_key pre token) "is_valid" "True"

/-- Python truthiness of an `Optional[str]`: `None` and the empty string are
falsy, every other string is truthy.  `remove_token` branches on `if token:`. -/
def pyTruthy : Option String → Bool
  | none => false
  | some t => !(t == "")

/-- `remove_token(user_id, token)` from `manage_tokens.py`: when `token` is
truthy, read the current forward mapping with `HGET` and delete the field only
when it equals the supplied token; otherwise (token `None` or empty string)
delete the field unconditionally. -/
def remove_token (pre : String) (s : Store) (userId : Int) (token : Option String) :
    Store :=
  if pyTruthy token then
    if hget s (user_key pre userId) "token" = token then
      hdel s (user_key pre userId) "token"
    else s
  else hdel s (user_key pre userId) "token"

/-! Generic lemmas about the store primitives, used by several claims. -/

theorem hashGet_hashSet_self (h : Hash) (f v : String) :
    hashGet (hashSet h f v) f = some v := by
  induction h with
  | nil => simp [hashSet, hashGet]
  | cons p rest ih =>
      by_cases hp : p.1 = f
      · simp [hashSet, hashGet, hp]
      · simp [hashSet, hashGet, hp, ih]

theorem hashGet_hashSet_ne (h : Hash) (f g v : String) (hne : g ≠ f) :
    hashGet (hashSet h f v) g = hashGet h g := by
  induction h with
  | nil => simp [hashSet, hashGet, Ne.symm hne]
  | cons p rest ih =>
      by_cases hp : p.1 = f
      · simp [hashSet, hashGet, hp, Ne.symm hne]
      · simp [hashSet, hashGet, hp, ih]

theorem hashGet_hashDel_self (h : Hash) (f : String) :
    hashGet (hashDel h f) f = none := by
  induction h with
  | nil => simp [hashDel, hashGet]
  | cons p rest ih =>
      by_cases hp : p.1 = f
      · simpa [hashDel, hashGet, hp] using ih
      · simpa [hashDel, hashGet, hp] using ih

theorem hashGet_hashDel_ne (h : Hash) (f g : String) (hne : g ≠ f) :
    hashGet (hashDel h f) g = hashGet h g := by
  induction h with
  | nil => simp [hashDel, hashGet]
  | cons p rest ih =>
      by_cases hp : p.1 = f
      · have h1 : hashDel (p :: rest) f = hashDel rest f := by
          simp [hashDel, hp]
        rw [h1, ih]
        simp [hashGet, hp, Ne.symm hne]
      · have h1 : hashDel (p :: rest) f = p :: hashDel rest f := by
          simp [hashDel, hp]
        rw [h1]
        simp [hashGet, ih]

theorem storeGet_storeSet_self (s : Store) (k : String) (h : Hash) :
    storeGet (storeSet s k h) k = h := by
  induction s with
  | nil => simp [storeSet, storeGet]
  | cons p rest ih =>
      by_cases hp : p.1 = k
      · simp [storeSet, storeGet, hp]
      · simp [storeSet, storeGet, hp, ih]

theorem storeGet_storeSet_ne (s : Store) (k k' : String) (h : Hash) (hne : k' ≠ k) :
    storeGet (storeSet s k h) k' = storeGet s k' := by
  induction s with
  | nil => simp [storeSet, storeGet, Ne.symm hne]
  | cons p rest ih =>
      by_cases hp : p.1 = k
      · simp [storeSet, storeGet, hp, Ne.symm hne]
      · simp [storeSet, storeGet, hp, ih]

theorem hget_hset_self (s : Store) (k f v : String) :
    hget (hset s k f v) k f = some v := by
  simp [hget, hset, storeGet_storeSet_self, hashGet_hashSet_self]

theorem hget_hset_frame (s : Store) (k k' f f' v : String)
    (h : ¬(k' = k ∧ f' = f)) :
    hget (hset s k f v) k' f' = hget s k' f' := by
  by_cases hk : k' = k
  · have hf : f' ≠ f := fun hf => h ⟨hk, hf⟩
    simp [hget, hset, hk, storeGet_storeSet_self, hashGet_hashSet_ne _ _ _ _ hf]
  · simp [hget, hset, storeGet_storeSet_ne _ _ _ _ hk]

theorem hget_hdel_self (s : Store) (k f : String) :
    hget (hdel s k f) k f = none := by
  simp [hget, hdel, storeGet_storeSet_self, hashGet_hashDel_self]

theorem hget_hdel_frame (s : Store) (k k' f f' : String)
    (h : ¬(k' = k ∧ f' = f)) :
    hget (hdel s k f) k' f' = hget s k' f' := by
  by_cases hk : k' = k
  · have hf : f' ≠ f := fun hf => h ⟨hk, hf⟩
    simp [hget, hdel, hk, storeGet_storeSet_self, hashGet_hashDel_ne _ _ _ hf]
  · simp [hget, hdel, storeGet_storeSet_ne _ _ _ _ hk]

theorem hgetall_hset_self (s : Store) (k f v : String) :
    hgetall (hset s k f v) k = hashSet (hgetall s k) f v := by
  simp [hgetall, hset, storeGet_storeSet_self]

theorem hgetall_hset_ne (s : Store) (k k' f v : String) (hne : k' ≠ k) :
    hgetall (hset s k f v) k' = hgetall s k' := by
  simp [hgetall, hset, storeGet_storeSet_ne _ _ _ _ hne]

theorem hgetall_hdel_self (s : Store) (k f : String) :
    hgetall (hdel s k f) k = hashDel (hgetall s k) f := by
  simp [hgetall, hdel, storeGet_storeSet_self]

theorem hgetall_hdel_ne (s : Store) (k k' f : String) (hne : k' ≠ k) :
    hgetall (hdel s k f) k' = hgetall s k' := by
  simp [hgetall, hdel, storeGet_storeSet_ne _ _ _ _ hne]

theorem append_ne_of_length_ne (p a b : String) (h : a.length ≠ b.length) :
    p ++ a ≠ p ++ b := by
  intro he
  have hl : (p ++ a).length = (p ++ b).length := congrArg String.length he
  rw [String.length_append, String.length_append] at hl
  exact h (by omega)

/-- The per-user key and a per-token key differ whenever the suffixes have
different lengths; in particular `user_key pre 42 ≠ token_key pre "T1"`. -/
theorem user_key_ne_token_key (pre : String) (userId : Int) (token : String)
    (h : ("user:" ++ toString userId).length ≠ token.length) :
    user_key pre userId ≠ token_key pre token := by
  have := append_ne_of_length_ne pre ("user:" ++ toString userId) token h
  simpa [user_key, token_key, String.append_assoc] using this

/-! Claim C1 — conditional removal.  The code branches on Python truthiness
(`if token:`), so a supplied empty-string token is treated like an omitted
token and deletes unconditionally, refuting the claim as stated for every
supplied token; the conditional behaviour holds for every non-empty token. -/

/-- C1 counterexample: with stored forward-mapped value "A" for user 1, a
remove request carrying the supplied token "" (which differs from "A")
nevertheless deletes the mapping, so removal with a supplied token is not
conditioned on equality with the stored value. -/
theorem remove_token_empty_token_counterexample :
    hget (add_token "" [] 1 "A") (user_key "" 1) "token" = some "A"
    ∧ (some "" : Option String) ≠ some "A"
    ∧ hget (remove_token "" (add_token "" [] 1 "A") 1 (some ""))
        (user_key "" 1) "token" = none := by
  refine ⟨by decide, by decide, by decide⟩

/-- C1 (amended): for every non-empty supplied token, remove deletes the
forward-mapped field exactly when the stored value equals the supplied token
(otherwise the store is untouched), and remove with the token omitted deletes
the field unconditionally. -/
theorem remove_token_nonempty_conditional (pre : String) (s : Store) (uid : Int)
    (t : String) (ht : t ≠ "") :
    (hget s (user_key pre uid) "token" = some t →
      hget (remove_token pre s uid (some t)) (user_key pre uid) "token" = none)
    ∧ (hget s (user_key pre uid) "token" ≠ some t →
      remove_token pre s uid (some t) = s)
    ∧ hget (remove_token pre s uid none) (user_key pre uid) "token" = none := by
  refine ⟨?_, ?_, ?_⟩
  · intro hcur
    simp [remove_token, pyTruthy, ht, hcur, hget_hdel_self]
  · intro hcur
    simp [remove_token, pyTruthy, ht, hcur]
  · simp [remove_token, pyTruthy, hget_hdel_self]

/-- C1 witness: the amended theorem applied at stored value "A", supplied
token "B" (no deletion), and at an omitted token (unconditional deletion). -/
theorem remove_token_nonempty_conditional_witness :
    remove_token "" (add_token "" [] 1 "A") 1 (some "B") = add_token "" [] 1 "A"
    ∧ hget (remove_token "" (add_token "" [] 1 "A") 1 none) (user_key "" 1) "token"
        = none :=
  ⟨(remove_token_nonempty_conditional "" (add_token "" [] 1 "A") 1 "B"
      (by decide)).2.1 (by decide),
   (remove_token_nonempty_conditional "" (add_token "" [] 1 "A") 1 "B"
      (by decide)).2.2⟩

/-- C6: starting from a store with no mapping for user 42, adding token "T1"
makes list return the mapping containing token "T1"; removing with token "T2"
leaves the store unchanged; removing with token "T1" clears the forward
mapping; and listing afterwards returns empty. -/
theorem token_lifecycle_scenario (pre : String) (s : Store)
    (h0 : hgetall s (user_key pre 42) = []) :
    list_tokens pre (add_token pre s 42 "T1") 42 = [("token", "T1")]
    ∧ remove_token pre (add_token pre s 42 "T1") 42 (some "T2")
        = add_token pre s 42 "T1"
    ∧ hget (remove_token pre
          (remove_token pre (add_token pre s 42 "T1") 42 (some "T2")) 42 (some "T1"))
        (user_key pre 42) "token" = none
    ∧ list_tokens pre
        (remove_token pre
          (remove_token pre (add_token pre s 42 "T1") 42 (some "T2")) 42 (some "T1"))
        42 = [] := by
  have hne : user_key pre 42 ≠ token_key pre "T1" :=
    user_key_ne_token_key pre 42 "T1" (by decide)
  have h1 : hgetall (add_token pre s 42 "T1") (user_key pre 42) = [("token", "T1")] := by
    unfold add_token
    rw [hgetall_hset_ne _ _ _ _ _ hne, hgetall_hset_self, h0]
    rfl
  have hcur : hget (add_token pre s 42 "T1") (user_key pre 42) "token" = some "T1" := by
    unfold hget
    unfold hgetall at h1
    rw [h1]
    rfl
  have h2 : remove_token pre (add_token pre s 42 "T1") 42 (some "T2")
      = add_token pre s 42 "T1" := by
    simp [remove_token, pyTruthy, hcur]
  have h3 : remove_token pre (add_token pre s 42 "T1") 42 (some "T1")
      = hdel (add_token pre s 42 "T1") (user_key pre 42) "token" := by
    simp [remove_token, pyTruthy, hcur]
  refine ⟨h1, h2, ?_, ?_⟩
  · rw [h2, h3]
    exact hget_hdel_self _ _ _
  · rw [h2, h3]
    unfold list_tokens
    rw [hgetall_hdel_self, h1]
    rfl

/-- C6 witness: the scenario theorem applied to the empty store with an empty
key prefix. -/
theorem token_lifecycle_scenario_witness :
    list_tokens "" (add_token "" [] 42 "T1") 42 = [("token", "T1")]
    ∧ remove_token "" (add_token "" [] 42 "T1") 42 (some "T2")
        = add_token "" [] 42 "T1"
    ∧ hget (remove_token ""
          (remove_token "" (add_token "" [] 42 "T1") 42 (some "T2")) 42 (some "T1"))
        (user_key "" 42) "token" = none
    ∧ list_tokens ""
        (remove_token ""
          (remove_token "" (add_token "" [] 42 "T1") 42 (some "T2")) 42 (some "T1"))
        42 = [] :=
  token_lifecycle_scenario "" [] rfl

/-! Claim C8 — frame property of remove.  The key scheme aliases the
per-token metadata key with a per-user key exactly when the token string is
"user:" followed by a user id; in that case removing the forward mapping
does alter the hash stored at the token metadata key. -/

/-- C8 counterexample: for user 42 and token "user:42" the metadata key and
the forward-mapping key coincide, and a matching remove changes the hash
stored at the token metadata key (the "token" field disappears from it). -/
theorem remove_token_alias_counterexample :
    hgetall (add_token "" [] 42 "user:42") (token_key "" "user:42")
      = [("token", "user:42"), ("is_valid", "True")]
    ∧ hgetall (remove_token "" (add_token "" [] 42 "user:42") 42 (some "user:42"))
        (token_key "" "user:42") = [("is_valid", "True")] := by
  refine ⟨by decide, by decide⟩

/-- C8 (amended): remove modifies at most the "token" field of the per-user
forward-mapping key, and therefore leaves the metadata entry of a token
untouched whenever that entry is keyed differently from the per-user key
(which fails only when the token string aliases "user:" plus the user id). -/
theorem remove_token_frame (pre : String) (s : Store) (uid : Int)
    (tok : Option String) (k f t : String)
    (h1 : ¬(k = user_key pre uid ∧ f = "token"))
    (h2 : token_key pre t ≠ user_key pre uid) :
    hget (remove_token pre s uid tok) k f = hget s k f
    ∧ hgetall (remove_token pre s uid tok) (token_key pre t)
        = hgetall s (token_key pre t) := by
  have hcases : remove_token pre s uid tok = s
      ∨ remove_token pre s uid tok = hdel s (user_key pre uid) "token" := by
    unfold remove_token
    split
    · split
      · exact Or.inr rfl
      · exact Or.inl rfl
    · exact Or.inr rfl
  rcases hcases with h | h <;> rw [h]
  · exact ⟨rfl, rfl⟩
  · exact ⟨hget_hdel_frame _ _ _ _ _ h1, hgetall_hdel_ne _ _ _ _ h2⟩

/-- C8 witness: the frame theorem applied at a concrete store, an unrelated
key/field pair, and the non-aliasing token "T1". -/
theorem remove_token_frame_witness :
    hget (remove_token "" (add_token "" [] 42 "T1") 42 (some "T1")) "x" "y"
      = hget (add_token "" [] 42 "T1") "x" "y"
    ∧ hgetall (remove_token "" (add_token "" [] 42 "T1") 42 (some "T1"))
        (token_key "" "T1") = hgetall (add_token "" [] 42 "T1") (token_key "" "T1") :=
  remove_token_frame "" (add_token "" [] 42 "T1") 42 (some "T1") "x" "y" "T1"
    (by decide) (by decide)

/-! Claim C9 — metadata written by add.  The `HSET ... mapping={"is_valid":
"True"}` call sets one field without clearing others, so the metadata entry
holds exactly the is_valid field only when it was empty beforehand and is not
aliased with the per-user key written first. -/

/-- C9 counterexample: after add(42, "user:42") on the empty store, the token
metadata entry does not contain only the is_valid field — the aliased
forward-mapping write left a "token" field inside it as well. -/
theorem add_token_alias_counterexample :
    hget (add_token "" [] 42 "user:42") (token_key "" "user:42") "token"
      = some "user:42"
    ∧ hgetall (add_token "" [] 42 "user:42") (token_key "" "user:42")
        ≠ [("is_valid", "True")] := by
  refine ⟨by decide, by decide⟩

/-- C9 (amended): add always sets is_valid to the string "True" on the token
metadata key; the entry consists of exactly that field provided the metadata
key differs from the per-user key and was empty beforehand; and no store
operation ever writes the last_validated field declared by TokenValidation. -/
theorem add_token_metadata_fields (pre : String) (s : Store) (uid : Int)
    (tok : String)
    (h2 : token_key pre tok ≠ user_key pre uid)
    (h3 : hgetall s (token_key pre tok) = []) :
    hget (add_token pre s uid tok) (token_key pre tok) "is_valid" = some "True"
    ∧ hgetall (add_token pre s uid tok) (token_key pre tok) = [("is_valid", "True")]
    ∧ (∀ k : String,
        hget (add_token pre s uid tok) k "last_validated" = hget s k "last_validated")
    ∧ (∀ (k : String) (tok2 : Option String),
        hget (remove_token pre s uid tok2) k "last_validated"
          = hget s k "last_validated") := by
  refine ⟨hget_hset_self _ _ _ _, ?_, ?_, ?_⟩
  · unfold add_token
    rw [hgetall_hset_self, hgetall_hset_ne _ _ _ _ _ h2, h3]
    rfl
  · intro k
    unfold add_token
    rw [hget_hset_frame _ _ _ _ _ _ (fun hc => by exact absurd hc.2 (by decide)),
      hget_hset_frame _ _ _ _ _ _ (fun hc => by exact absurd hc.2 (by decide))]
  · intro k tok2
    have hcases : remove_token pre s uid tok2 = s
        ∨ remove_token pre s uid tok2 = hdel s (user_key pre uid) "token" := by
      unfold remove_token
      split
      · split
        · exact Or.inr rfl
        · exact Or.inl rfl
      · exact Or.inr rfl
    rcases hcases with h | h <;> rw [h]
    exact hget_hdel_frame _ _ _ _ _ (fun hc => by exact absurd hc.2 (by decide))

/-- C9 witness: the amended theorem applied at the empty store with token
"T1" for user 42, instantiating the universally quantified parts at a
concrete key. -/
theorem add_token_metadata_fields_witness :
    hget (add_token "" [] 42 "T1") (token_key "" "T1") "is_valid" = some "True"
    ∧ hgetall (add_token "" [] 42 "T1") (token_key "" "T1") = [("is_valid", "True")]
    ∧ hget (add_token "" [] 42 "T1") "k" "last_validated"
        = hget [] "k" "last_validated"
    ∧ hget (remove_token "" [] 42 none) "k" "last_validated"
        = hget [] "k" "last_validated" :=
  ⟨(add_token_metadata_fields "" [] 42 "T1" (by decide) rfl).1,
   (add_token_metadata_fields "" [] 42 "T1" (by decide) rfl).2.1,
   (add_token_metadata_fields "" [] 42 "T1" (by decide) rfl).2.2.1 "k",
   (add_token_metadata_fields "" [] 42 "T1" (by decide) rfl).2.2.2 "k" none⟩

/-!
Event normalization, from `schemas.py`.

`NotificationEvent` is a pydantic model; validation plus `model_post_init`
act as the normalizer.  `user_id` is declared `int | str`, so a validated
input value is either an integer or a string; `model_post_init` then calls
the Python builtin `int()` on a string value, keeping the string (and
printing a warning) when conversion raises.  `event_id` uses
`default_factory=uuid4` and `created_at` uses `default_factory=datetime.utcnow`:
the factory runs only when the field is absent from the input.

UUID values are modelled as natural numbers and the external `uuid4` library
call as an injective fresh supply threaded through normalization, reflecting
the uniqueness contract of freshly generated UUIDs; timestamps are modelled
as an opaque `now` parameter.
-/

/-- The validated type of the `user_id` field, `int | str` in the model. -/
inductive UserId where
  | int : Int → UserId
  | str : String → UserId
deriving DecidableEq

/-- Whitespace stripped by the Python builtin `int()` around a numeric
string (ASCII whitespace). -/
def isPySpace (c : Char) : Bool :=
  c == ' ' || c == '\t' || c == '\n' || c == '\r' || c == '\x0b' || c == '\x0c'

/-- Digit run accepted by the Python builtin `int()` after the optional
sign: decimal digits with single underscores allowed between digits. -/
def parseDigits : List Char → Nat → Bool → Option Nat
  | [], _, false => none
  | [], acc, true => some acc
  | c :: rest, acc, lastDigit =>
    if c = '_' then
      if lastDigit then parseDigits rest acc false else none
    else if c.isDigit then
      parseDigits rest (acc * 10 + (c.toNat - '0'.toNat)) true
    else none

/-- The Python builtin `int(s)` on a string: strip whitespace, accept an
optional sign followed by a digit run, otherwise raise (here: `none`). -/
def pyIntOfString (s : String) : Option Int :=
  match ((s.data.dropWhile isPySpace).reverse.dropWhile isPySpace).reverse with
  | '+' :: rest => (parseDigits rest 0 false).map (fun n => (n : Int))
  | '-' :: rest => (parseDigits rest 0 false).map (fun n => -(n : Int))
  | cs => (parseDigits cs 0 false).map (fun n => (n : Int))

/-- `NotificationEvent.model_post_init` from `schemas.py`: coerce a string
user_id to an integer when `int()` succeeds, otherwise keep the string and
emit a diagnostic warning (the returned flag) instead of failing. -/
def coerce_user_id : UserId → UserId × Bool
  | .int n => (.int n, false)
  | .str s =>
    match pyIntOfString s with
    | some n => (.int n, false)
    | none => (.str s, true)

/-- State of the modelled fresh-UUID supply. -/
structure UuidGen where
  counter : Nat
deriving DecidableEq

/-- The external `uuid4()` call, modelled as drawing the next value of an
injective fresh supply. -/
def uuid4 (g : UuidGen) : Nat × UuidGen :=
  (g.counter, ⟨g.counter + 1⟩)

/-- The `event_id` field default: `Field(default_factory=uuid4)` — the
factory runs only when the input carries no event_id. -/
def assign_event_id (g : UuidGen) (inp : Option Nat) : Nat × UuidGen :=
  match inp with
  | some e => (e, g)
  | none => uuid4 g

/-- A raw inbound payload, already shaped for the declared field types of
the pydantic model (optional event_id and created_at, `int | str` user_id,
optional template_id and free-form payload). -/
structure RawEvent where
  event_id : Option Nat
  user_id : UserId
  template_id : Option String
  payload : Option (List (String × String))
  created_at : Option Nat
deriving DecidableEq

/-- The canonical normalized event produced by validating a `RawEvent`. -/
structure NotificationEvent where
  event_id : Nat
  user_id : UserId
  template_id : Option String
  payload : Option (List (String × String))
  created_at : Nat
deriving DecidableEq

/-- Normalization: pydantic validation of `NotificationEvent` followed by
`model_post_init`.  Returns the canonical event, the advanced fresh supply,
and whether the user_id coercion warning was emitted. -/
def normalize (g : UuidGen) (now : Nat) (raw : RawEvent) :
    NotificationEvent × UuidGen × Bool :=
  ({ event_id := (assign_event_id g raw.event_id).1,
     user_id := (coerce_user_id raw.user_id).1,
     template_id := raw.template_id,
     payload := raw.payload,
     created_at := raw.created_at.getD now },
   (assign_event_id g raw.event_id).2,
   (coerce_user_id raw.user_id).2)

/-- A raw event carrying only a user identifier. -/
def rawWithUser (u : UserId) : RawEvent :=
  { event_id := none, user_id := u, template_id := none, payload := none,
    created_at := none }

/-- C3: normalization coerces the numeric string "123" to the integer 123
(no warning), keeps the non-numeric string "abc" as the string "abc" while
emitting the diagnostic warning rather than failing, and leaves the integer
77 as the integer 77. -/
theorem user_id_coercion_cases (g : UuidGen) (now : Nat) :
    (normalize g now (rawWithUser (.str "123"))).1.user_id = UserId.int 123
    ∧ (normalize g now (rawWithUser (.str "123"))).2.2 = false
    ∧ (normalize g now (rawWithUser (.str "abc"))).1.user_id = UserId.str "abc"
    ∧ (normalize g now (rawWithUser (.str "abc"))).2.2 = true
    ∧ (normalize g now (rawWithUser (.int 77))).1.user_id = UserId.int 77 :=
  ⟨rfl, rfl, rfl, rfl, rfl⟩

/-- C7: a missing event_id is assigned a freshly generated identifier,
distinct across two successive normalizations drawing from the supply, and
an event_id already present in the input is preserved unchanged. -/
theorem event_id_fresh_and_preserved (g : UuidGen) (n1 n2 n3 : Nat)
    (r1 r2 r3 : RawEvent) (e : Nat)
    (h1 : r1.event_id = none) (h2 : r2.event_id = none)
    (h3 : r3.event_id = some e) :
    (normalize g n1 r1).1.event_id
      ≠ (normalize (normalize g n1 r1).2.1 n2 r2).1.event_id
    ∧ (normalize g n3 r3).1.event_id = e := by
  constructor
  · simp [normalize, assign_event_id, uuid4, h1, h2]
  · simp [normalize, assign_event_id, h3]

/-- C7 witness: the theorem applied to a concrete supply, two inputs missing
the event_id, and one input carrying event_id 5. -/
theorem event_id_fresh_and_preserved_witness :
    (normalize ⟨0⟩ 0 (rawWithUser (.int 1))).1.event_id
      ≠ (normalize (normalize ⟨0⟩ 0 (rawWithUser (.int 1))).2.1 0
          (rawWithUser (.int 2))).1.event_id
    ∧ (normalize ⟨0⟩ 0
        { event_id := some 5, user_id := UserId.int 1, template_id := none,
          payload := none, created_at := none }).1.event_id = 5 :=
  event_id_fresh_and_preserved ⟨0⟩ 0 0 0 (rawWithUser (.int 1))
    (rawWithUser (.int 2))
    { event_id := some 5, user_id := UserId.int 1, template_id := none,
      payload := none, created_at := none } 5 rfl rfl rfl

/-!
Safe queue publishing, from `scripts/test_push_consumer.py`
(`publish_test_event`).

The whole body runs inside one `try`: parse the broker URL, open a
connection and a channel, probe the queue with `queue_declare(passive=True)`
inside an inner `try`, publish with `basic_publish`, close the connection and
return `True`; the outer `except Exception` prints the error and returns
`False`.  The inner probe has two handlers: `ChannelClosedByBroker` (either a
406 precondition-failed argument mismatch or a 404 not-found — the handler
does not distinguish them) reconnects when `connection.is_closed` and opens a
fresh channel, and a generic `except Exception` that only warns and keeps the
current channel.  No non-passive declare is ever issued.

The broker is modelled by an environment giving the outcome of each broker
round-trip; the run records the returned boolean, the trace of operations
attempted (connections numbered by attempt, channels by creation order), and
whether a live connection is still open when the function returns.  The model
function is total: the outer handler means no exception reaches the caller.
-/

/-- The broker close code carried by a `ChannelClosedByBroker` probe failure:
a 406 precondition-failed configuration mismatch or a 404 not-found. -/
inductive CloseReason where
  | preconditionFailed
  | notFound
deriving DecidableEq

/-- Outcome of the passive `queue_declare` probe. -/
inductive ProbeOutcome where
  | ok
  | closedByBroker (reason : CloseReason) (connectionAlsoClosed : Bool)
  | otherError
deriving DecidableEq

/-- Outcomes of the individual broker round-trips made by
`publish_test_event`: `true` means the call returns normally, `false` means
it raises. -/
structure BrokerEnv where
  connectOk : Bool
  channelOk : Bool
  probe : ProbeOutcome
  reconnectOk : Bool
  freshChannelOk : Bool
  publishOk : Bool
  closeOk : Bool
deriving DecidableEq

/-- One attempted broker operation, as recorded in the run trace. -/
inductive BrokerEvent where
  | connect (attempt : Nat)
  | openChannel (id : Nat)
  | passiveDeclare (channel : Nat)
  | publish (channel : Nat)
  | close
deriving DecidableEq

/-- Observable outcome of one call to `publish_test_event`. -/
structure PublishRun where
  result : Bool
  trace : List BrokerEvent
  connectionOpenAtEnd : Bool
deriving DecidableEq

/-- The tail of `publish_test_event` after the probe phase: `basic_publish`
on the current channel, then `connection.close()` and `return True`; a
raising publish or close is caught by the outer handler, which returns
`False` without any further cleanup. -/
def finishPublish (env : BrokerEnv) (tr : List BrokerEvent) (chan : Nat) :
    PublishRun :=
  if env.publishOk then
    if env.closeOk then
      { result := true, trace := tr ++ [.publish chan, .close],
        connectionOpenAtEnd := false }
    else
      { result := false, trace := tr ++ [.publish chan, .close],
        connectionOpenAtEnd := true }
  else
    { result := false, trace := tr ++ [.publish chan],
      connectionOpenAtEnd := true }

/-- `publish_test_event` from `scripts/test_push_consumer.py`.  Connection
attempt 0 and channel 0 come first; a `ChannelClosedByBroker` probe failure
leads to connection attempt 1 (only when the broker also closed the
connection) and always to fresh channel 1; any other probe error keeps
channel 0; the publish then proceeds with no further declare. -/
def publish_test_event (env : BrokerEnv) : PublishRun :=
  if env.connectOk then
    if env.channelOk then
      match env.probe with
      | .ok =>
          finishPublish env [.connect 0, .openChannel 0, .passiveDeclare 0] 0
      | .otherError =>
          finishPublish env [.connect 0, .openChannel 0, .passiveDeclare 0] 0
      | .closedByBroker _ connClosed =>
          if connClosed then
            if env.reconnectOk then
              if env.freshChannelOk then
                finishPublish env
                  [.connect 0, .openChannel 0, .passiveDeclare 0, .connect 1,
                    .openChannel 1] 1
              else
                { result := false,
                  trace := [.connect 0, .openChannel 0, .passiveDeclare 0,
                    .connect 1, .openChannel 1],
                  connectionOpenAtEnd := true }
            else
              { result := false,
                trace := [.connect 0, .openChannel 0, .passiveDeclare 0,
                  .connect 1],
                connectionOpenAtEnd := false }
          else
            if env.freshChannelOk then
              finishPublish env
                [.connect 0, .openChannel 0, .passiveDeclare 0, .openChannel 1] 1
            else
              { result := false,
                trace := [.connect 0, .openChannel 0, .passiveDeclare 0,
                  .openChannel 1],
                connectionOpenAtEnd := true }
    else
      { result := false, trace := [.connect 0, .openChannel 0],
        connectionOpenAtEnd := true }
  else
    { result := false, trace := [.connect 0], connectionOpenAtEnd := false }

/-- Channels on which a publish was attempted, in order. -/
def publishChannels (tr : List BrokerEvent) : List Nat :=
  tr.filterMap (fun e => match e with | .publish c => some c | _ => none)

/-- Number of queue-declare operations (all of them passive) in a trace. -/
def declareCount (tr : List BrokerEvent) : Nat :=
  (tr.filter (fun e => match e with | .passiveDeclare _ => true | _ => false)).length

/-- C2: when the probe fails with a channel-closed-by-broker error and the
remaining broker steps succeed, the publisher returns success, publishes
exactly once on the freshly obtained channel, performs no declare beyond the
single probe, and reconnects when the connection was also closed — the probe
error never surfaces to the caller as failure. -/
theorem publish_recovers_from_mismatch (env : BrokerEnv) (r : CloseReason)
    (c : Bool)
    (hp : env.probe = .closedByBroker r c)
    (h1 : env.connectOk = true) (h2 : env.channelOk = true)
    (h3 : env.reconnectOk = true) (h4 : env.freshChannelOk = true)
    (h5 : env.publishOk = true) (h6 : env.closeOk = true) :
    (publish_test_event env).result = true
    ∧ publishChannels (publish_test_event env).trace = [1]
    ∧ declareCount (publish_test_event env).trace = 1
    ∧ (c = true → BrokerEvent.connect 1 ∈ (publish_test_event env).trace) := by
  cases c <;>
    simp [publish_test_event, finishPublish, hp, h1, h2, h3, h4, h5, h6,
      publishChannels, declareCount]

/-- C2 witness: the theorem at the concrete environment whose probe reports
a precondition-failed mismatch that also closed the connection. -/
theorem publish_recovers_from_mismatch_witness :
    (publish_test_event
        ⟨true, true, .closedByBroker .preconditionFailed true, true, true, true,
          true⟩).result = true
    ∧ publishChannels (publish_test_event
        ⟨true, true, .closedByBroker .preconditionFailed true, true, true, true,
          true⟩).trace = [1]
    ∧ declareCount (publish_test_event
        ⟨true, true, .closedByBroker .preconditionFailed true, true, true, true,
          true⟩).trace = 1
    ∧ (true = true → BrokerEvent.connect 1 ∈ (publish_test_event
        ⟨true, true, .closedByBroker .preconditionFailed true, true, true, true,
          true⟩).trace) :=
  publish_recovers_from_mismatch
    ⟨true, true, .closedByBroker .preconditionFailed true, true, true, true, true⟩
    .preconditionFailed true rfl rfl rfl rfl rfl rfl rfl

/-- C4 counterexample: with every broker step healthy except a failing final
publish, the function returns the failure result while the connection is
still open — the connection is not released before the operation returns. -/
theorem publish_failure_leaves_connection_open :
    (publish_test_event ⟨true, true, .ok, true, true, false, true⟩).result = false
    ∧ (publish_test_event
        ⟨true, true, .ok, true, true, false, true⟩).connectionOpenAtEnd = true :=
  ⟨rfl, rfl⟩

/-- C4 (amended): the connection is released before returning only on the
success path — when the final publish and the close both succeed, the
function returns success with the connection released; when the final publish
fails, the exception is caught and failure is returned with the connection
left open. -/
theorem connection_closed_on_success_only (env : BrokerEnv)
    (h1 : env.connectOk = true) (h2 : env.channelOk = true)
    (h3 : env.reconnectOk = true) (h4 : env.freshChannelOk = true) :
    (env.publishOk = true → env.closeOk = true →
      (publish_test_event env).result = true
      ∧ (publish_test_event env).connectionOpenAtEnd = false)
    ∧ (env.publishOk = false →
      (publish_test_event env).result = false
      ∧ (publish_test_event env).connectionOpenAtEnd = true) := by
  constructor
  · intro h5 h6
    cases hp : env.probe with
    | ok => simp [publish_test_event, finishPublish, hp, h1, h2, h3, h4, h5, h6]
    | otherError =>
        simp [publish_test_event, finishPublish, hp, h1, h2, h3, h4, h5, h6]
    | closedByBroker r c =>
        cases c <;>
          simp [publish_test_event, finishPublish, hp, h1, h2, h3, h4, h5, h6]
  · intro h5
    cases hp : env.probe with
    | ok => simp [publish_test_event, finishPublish, hp, h1, h2, h3, h4, h5]
    | otherError =>
        simp [publish_test_event, finishPublish, hp, h1, h2, h3, h4, h5]
    | closedByBroker r c =>
        cases c <;>
          simp [publish_test_event, finishPublish, hp, h1, h2, h3, h4, h5]

/-- C4 witness: the amended theorem at the healthy environment, success
branch. -/
theorem connection_closed_on_success_only_witness :
    (publish_test_event ⟨true, true, .ok, true, true, true, true⟩).result = true
    ∧ (publish_test_event
        ⟨true, true, .ok, true, true, true, true⟩).connectionOpenAtEnd = false :=
  (connection_closed_on_success_only ⟨true, true, .ok, true, true, true, true⟩
    rfl rfl rfl rfl).1 rfl rfl

/-- C5: when the final publish raises, the exception is caught and surfaces
as the boolean failure result (the function returns normally, re-raising
nothing), and the publish was attempted exactly once — no automatic retry. -/
theorem publish_exception_caught_no_retry (env : BrokerEnv)
    (h1 : env.connectOk = true) (h2 : env.channelOk = true)
    (h3 : env.reconnectOk = true) (h4 : env.freshChannelOk = true)
    (h5 : env.publishOk = false) :
    (publish_test_event env).result = false
    ∧ (publishChannels (publish_test_event env).trace).length = 1 := by
  cases hp : env.probe with
  | ok =>
      simp [publish_test_event, finishPublish, hp, h1, h2, h3, h4, h5,
        publishChannels]
  | otherError =>
      simp [publish_test_event, finishPublish, hp, h1, h2, h3, h4, h5,
        publishChannels]
  | closedByBroker r c =>
      cases c <;>
        simp [publish_test_event, finishPublish, hp, h1, h2, h3, h4, h5,
          publishChannels]

/-- C5 witness: the theorem at the environment whose only failing step is the
final publish. -/
theorem publish_exception_caught_no_retry_witness :
    (publish_test_event ⟨true, true, .ok, true, true, false, true⟩).result = false
    ∧ (publishChannels (publish_test_event
        ⟨true, true, .ok, true, true, false, true⟩).trace).length = 1 :=
  publish_exception_caught_no_retry ⟨true, true, .ok, true, true, false, true⟩
    rfl rfl rfl rfl rfl

/-- C10: a channel-closed-by-broker probe failure takes the same recovery
path whatever the broker reason — swapping a not-found (404) reason for a
precondition-failed (406) one leaves the entire run unchanged — and the
publisher publishes once on the fresh channel with no further declare and
reports success rather than surfacing the probe error. -/
theorem probe_error_reason_irrelevant (env : BrokerEnv) (r1 r2 : CloseReason)
    (c : Bool)
    (hp : env.probe = .closedByBroker r1 c)
    (h1 : env.connectOk = true) (h2 : env.channelOk = true)
    (h3 : env.reconnectOk = true) (h4 : env.freshChannelOk = true)
    (h5 : env.publishOk = true) (h6 : env.closeOk = true) :
    publish_test_event { env with probe := .closedByBroker r2 c }
      = publish_test_event env
    ∧ (publish_test_event env).result = true
    ∧ publishChannels (publish_test_event env).trace = [1]
    ∧ declareCount (publish_test_event env).trace = 1 := by
  cases c <;>
    simp [publish_test_event, finishPublish, hp, h1, h2, h3, h4, h5, h6,
      publishChannels, declareCount]

/-- C10 witness: the theorem at the environment whose probe reports a
not-found (404) closure, compared against the precondition-failed reason. -/
theorem probe_error_reason_irrelevant_witness :
    publish_test_event
        ⟨true, true, .closedByBroker .preconditionFailed false, true, true, true,
          true⟩
      = publish_test_event
        ⟨true, true, .closedByBroker .notFound false, true, true, true, true⟩
    ∧ (publish_test_event
        ⟨true, true, .closedByBroker .notFound false, true, true, true,
          true⟩).result = true
    ∧ publishChannels (publish_test_event
        ⟨true, true, .closedByBroker .notFound false, true, true, true,
          true⟩).trace = [1]
    ∧ declareCount (publish_test_event
        ⟨true, true, .closedByBroker .notFound false, true, true, true,
          true⟩).trace = 1 :=
  probe_error_reason_irrelevant
    ⟨true, true, .closedByBroker .notFound false, true, true, true, true⟩
    .notFound .preconditionFailed false rfl rfl rfl rfl rfl rfl rfl

end PushService
